import Mathlib

/-!
Shallow embedding of the iNaturalist Map Enhancer content scripts.

The repository ships two overlapping content-script variants:
* `src/content.js` — embedded below under namespace `ContentJs`;
* the content script contained in `src/unnamed/part_000` (after the popup
  script) — embedded under namespace `ContentAlt`.  This variant adds the
  `isMapViewPage` eligibility check, the anchor-element check and the
  `inat-map-enhanced` body marker class.

Modelling conventions:
* Numbers handled by the mapping library (zoom levels, coordinates) are
  rationals (`ℚ`); the scripts only ever add or subtract the fixed step 0.5.
* The document is modelled by the parts the scripts observe and mutate: the
  ordered list of injected style nodes (`document.getElementById` returns the
  first node with a given id) and `document.body`'s class list
  (`none` models a null `document.body`, on which `classList` access throws).
* The resolved Leaflet map instance is modelled by its zoom, center, max
  bounds, min zoom, the tile-layer `noWrap` flag, and a log of the library
  calls made on it (each call records its `animate`/`pan` flags), so that
  "no library call is made" and "animation is disabled" are observable.
* `requestAnimationFrame` callbacks are modelled as running once,
  synchronously at the end of the scheduling operation; the synthetic
  `resize` event dispatch is modelled by a counter.
* The CSS text of the injected stylesheet is opaque data here (no claim
  inspects it); it is represented by a fixed non-empty string.
* Fallible DOM operations return the partially mutated state together with
  `Option String`: `some err` models a thrown exception, and the returned
  state is the state at the moment of the throw.
-/

namespace INat

/-- A latitude/longitude pair, as returned by the library's `getCenter` and
built by `L.latLng(lat, lng)`. -/
structure LatLng where
  lat : ℚ
  lng : ℚ
deriving DecidableEq

/-- A bounding box, as built by `L.latLngBounds(southWest, northEast)`. -/
structure BoundsBox where
  swLat : ℚ
  swLng : ℚ
  neLat : ℚ
  neLng : ℚ
deriving DecidableEq

/-- One call made into the mapping library on the resolved instance, with the
animation flags the scripts pass. -/
inductive MapCall where
  | setZoom (z : ℚ) (animate : Bool)
  | panTo (c : LatLng) (animate : Bool)
  | invalidateSize (animate : Bool) (pan : Bool)
  | setMaxBounds (b : BoundsBox)
  | setMinZoom (z : ℚ)
deriving DecidableEq

/-- Observable state of the resolved Leaflet map instance, together with the
log of library calls made on it (oldest first). -/
structure MapState where
  zoom : ℚ
  center : LatLng
  minZoom : Option ℚ
  maxBounds : Option BoundsBox
  noWrap : Bool
  calls : List MapCall
deriving DecidableEq

/-- Model of `leafletMap.setZoom(z, {animate})`. -/
def MapState.doSetZoom (m : MapState) (z : ℚ) (animate : Bool) : MapState :=
  { m with zoom := z, calls := m.calls ++ [MapCall.setZoom z animate] }

/-- Model of `leafletMap.panTo(center, {animate})`. -/
def MapState.doPanTo (m : MapState) (c : LatLng) (animate : Bool) : MapState :=
  { m with center := c, calls := m.calls ++ [MapCall.panTo c animate] }

/-- Model of `leafletMap.invalidateSize({animate, pan})`. -/
def MapState.doInvalidateSize (m : MapState) (animate pan : Bool) : MapState :=
  { m with calls := m.calls ++ [MapCall.invalidateSize animate pan] }

/-- Model of `leafletMap.setMaxBounds(bounds)`. -/
def MapState.doSetMaxBounds (m : MapState) (b : BoundsBox) : MapState :=
  { m with maxBounds := some b, calls := m.calls ++ [MapCall.setMaxBounds b] }

/-- Model of `leafletMap.setMinZoom(z)`. -/
def MapState.doSetMinZoom (m : MapState) (z : ℚ) : MapState :=
  { m with minZoom := some z, calls := m.calls ++ [MapCall.setMinZoom z] }

/-- An injected `<style>` node: its id attribute and its CSS text. -/
structure StyleNode where
  id : String
  css : String
deriving DecidableEq

/-- The parts of the document the scripts observe and mutate: the injected
style nodes in document order, and `document.body`'s class list (`none`
models a null `document.body`). -/
structure Doc where
  styles : List StyleNode
  body : Option (List String)
deriving DecidableEq

/-- Model of `document.getElementById(i)` followed by `.remove()` on style
nodes: removes the first node carrying id `i` (or nothing when absent). -/
def removeElementById (l : List StyleNode) (i : String) : List StyleNode :=
  match l with
  | [] => []
  | n :: rest => if n.id = i then rest else n :: removeElementById rest i

/-- Number of style nodes in `l` carrying id `i`. -/
def styleCount (l : List StyleNode) (i : String) : Nat :=
  (l.filter (fun n => n.id = i)).length

/-- Model of `injectStyles(css, id)` (identical in both content-script
variants): remove the first existing node with the id, then append a fresh
node holding the new text. -/
def injectStyles (d : Doc) (css i : String) : Doc :=
  { d with styles := removeElementById d.styles i ++ [⟨i, css⟩] }

/-- Model of `window.location`: `pathname` never includes the query string,
which is carried separately in `search`. -/
structure Location where
  pathname : String
  search : String
deriving DecidableEq

/-- Page-session state of the content script: the module-level mutable
variables (`originalStyles`, `config`, `stylesApplied`, `mapFound`), the
document, the current location, the presence of the elements the selectors
look up, and the resolved map instance (`none` models an unresolvable
instance; resolution corresponds to `getLeafletMapInstance` on the `#map`
container). -/
structure SessionState where
  doc : Doc
  location : Location
  /-- `document.querySelector('#map')` finds the container. -/
  mapIdPresent : Bool
  /-- `document.querySelector('.leaflet-container')` finds a node. -/
  leafletContainerPresent : Bool
  /-- Result of `getLeafletMapInstance` on the map container. -/
  mapInstance : Option MapState
  obsPanelPresent : Bool
  obsPanelStyled : Bool
  mapControlsPresent : Bool
  mapControlsStyled : Bool
  /-- `originalStyles.zoom`. -/
  originalZoom : Option ℚ
  /-- `originalStyles.center`. -/
  originalCenter : Option LatLng
  /-- `originalStyles.mapHeight`. -/
  originalMapHeight : Option String
  /-- `config.fullMapHeight`. -/
  config : Bool
  stylesApplied : Bool
  mapFound : Bool
  /-- Number of synthetic `resize` events dispatched. -/
  resizeEvents : Nat
deriving DecidableEq

/-- `CONSTANTS.STYLE_ID`, the reserved identifier of the singleton
stylesheet. -/
def STYLE_ID : String := "inat-map-enhancer-styles"

/-- `CONSTANTS.ZOOM_ADJUSTMENT`. -/
def ZOOM_ADJUSTMENT : ℚ := 1/2

/-- `CONSTANTS.MIN_ZOOM_LEVEL`. -/
def MIN_ZOOM_LEVEL : ℚ := 1

/-- The body marker class added by the `part_000` content-script variant. -/
def markerClass : String := "inat-map-enhanced"

/-- The composed CSS text of the overlay stylesheet.  Its content is opaque
data for this development: no behaviour depends on it, only on the node
carrying `STYLE_ID`. -/
def mapStylesText : String := "full map height overlay rules"

/-- The full-earth box `L.latLngBounds(L.latLng(-85,-180), L.latLng(85,180))`
built in `applyMapBounds`. -/
def fullEarthBounds : BoundsBox := ⟨-85, -180, 85, 180⟩

/-- Model of `repositionObservationCards` (identical in both variants):
inline-styles the observation panel when one of the panel selectors matches,
and the map controls when present. -/
def repositionObservationCards (s : SessionState) : SessionState :=
  let s1 := if s.obsPanelPresent then { s with obsPanelStyled := true } else s
  if s1.mapControlsPresent then { s1 with mapControlsStyled := true } else s1

/-- Model of `adjustMapZoom` (identical in both variants): returns early when
the `#map` container is absent; otherwise, when the instance resolves,
captures `originalStyles.zoom`/`center` if not already stored, zooms out by
`ZOOM_ADJUSTMENT` when the current zoom exceeds `MIN_ZOOM_LEVEL`, and
invalidates the rendered size; finally repositions the observation cards. -/
def adjustMapZoom (s : SessionState) : SessionState :=
  if s.mapIdPresent = false then s
  else
    let s1 :=
      match s.mapInstance with
      | none => s
      | some m =>
        let s2 :=
          if s.originalZoom = none then
            { s with originalZoom := some m.zoom, originalCenter := some m.center }
          else s
        let m1 :=
          if m.zoom > MIN_ZOOM_LEVEL then m.doSetZoom (m.zoom - ZOOM_ADJUSTMENT) false
          else m
        let m2 := m1.doInvalidateSize false false
        { s2 with mapInstance := some m2 }
    repositionObservationCards s1

/-- Model of `applyMapBounds` (identical in both variants): when the `#map`
container is present and the instance resolves, restricts the max bounds to
the full-earth box, raises the minimum zoom to 2, and marks tile layers as
non-wrapping. -/
def applyMapBounds (s : SessionState) : SessionState :=
  if s.mapIdPresent = false then s
  else
    match s.mapInstance with
    | none => s
    | some m =>
      let m1 := m.doSetMaxBounds fullEarthBounds
      let m2 := m1.doSetMinZoom 2
      let m3 := { m2 with noWrap := true }
      { s with mapInstance := some m3 }

/-- The restore block shared (textually identical) by both variants'
`removeFullMapHeight`: when `originalStyles.zoom` was stored, the `#map`
container is present and the instance resolves, re-applies the captured zoom
without animation, pans to the captured center when one was stored, and
invalidates the rendered size. -/
def restoreOriginalMapState (s : SessionState) : SessionState :=
  match s.originalZoom with
  | none => s
  | some z =>
    if s.mapIdPresent = false then s
    else
      match s.mapInstance with
      | none => s
      | some m =>
        let m1 := m.doSetZoom z false
        let m2 :=
          match s.originalCenter with
          | some c => m1.doPanTo c false
          | none => m1
        let m3 := m2.doInvalidateSize false false
        { s with mapInstance := some m3 }

namespace ContentJs

/-- Model of `applyFullMapHeight` in `src/content.js`: skips when already
applied; otherwise injects the stylesheet, sets `stylesApplied`, and in the
`requestAnimationFrame` callback applies the bounds, adjusts the zoom and
dispatches a synthetic `resize` event.  This variant performs no page
eligibility check and no anchor-element check. -/
def applyFullMapHeight (s : SessionState) : SessionState :=
  if s.stylesApplied then s
  else
    let sa := { s with doc := injectStyles s.doc mapStylesText STYLE_ID,
                       stylesApplied := true }
    let sb := adjustMapZoom (applyMapBounds sa)
    { sb with resizeEvents := sb.resizeEvents + 1 }

/-- Model of `removeFullMapHeight` in `src/content.js`: removes the style
node when present, clears `stylesApplied`, and restores the original map
state when a snapshot was stored.  No applied-flag guard exists. -/
def removeFullMapHeight (s : SessionState) : SessionState :=
  let s1 := { s with doc := { s.doc with styles := removeElementById s.doc.styles STYLE_ID },
                     stylesApplied := false }
  restoreOriginalMapState s1

end ContentJs

namespace ContentAlt

/-- Model of `isMapViewPage` from the `part_000` content-script variant:
true exactly when `window.location.pathname` is `/observations` or
`/observations/` (the pathname never contains the query string). -/
def isMapViewPage (loc : Location) : Bool :=
  loc.pathname == "/observations" || loc.pathname == "/observations/"

/-- Model of `applyFullMapHeight` from the `part_000` content-script variant:
skips when already applied, when the page is not a map view page, or when
neither `#map` nor `.leaflet-container` is present; otherwise adds the body
marker class (throwing when `document.body` is null), injects the stylesheet,
sets `stylesApplied`, and in the `requestAnimationFrame` callback applies the
bounds, adjusts the zoom and dispatches a synthetic `resize` event. -/
def applyFullMapHeight (s : SessionState) : SessionState × Option String :=
  if s.stylesApplied then (s, none)
  else if isMapViewPage s.location = false then (s, none)
  else if (s.mapIdPresent || s.leafletContainerPresent) = false then (s, none)
  else
    match s.doc.body with
    | none => (s, some "TypeError: body is null")
    | some cls =>
      let cls1 := if cls.contains markerClass then cls else cls ++ [markerClass]
      let s1 := { s with doc := { s.doc with body := some cls1 } }
      let s2 := { s1 with doc := injectStyles s1.doc mapStylesText STYLE_ID,
                          stylesApplied := true }
      let s3 := adjustMapZoom (applyMapBounds s2)
      ({ s3 with resizeEvents := s3.resizeEvents + 1 }, none)

/-- Model of `removeFullMapHeight` from the `part_000` content-script
variant: removes the style node when present, removes the body marker class
(throwing when `document.body` is null), clears `stylesApplied`, and restores
the original map state when a snapshot was stored.  No applied-flag guard
exists. -/
def removeFullMapHeight (s : SessionState) : SessionState × Option String :=
  let s1 := { s with doc := { s.doc with styles := removeElementById s.doc.styles STYLE_ID } }
  match s1.doc.body with
  | none => (s1, some "TypeError: body is null")
  | some cls =>
    let s2 := { s1 with doc := { s1.doc with body := some (cls.filter (fun c => c != markerClass)) } }
    let s3 := { s2 with stylesApplied := false }
    (restoreOriginalMapState s3, none)

/-- A cross-context request as received by the `chrome.runtime.onMessage`
listener. -/
structure Message where
  action : String
  enabled : Bool
deriving DecidableEq

/-- The response object passed to `sendResponse`; absent fields are `none`. -/
structure MsgResponse where
  success : Option Bool
  error : Option String
  fullMapHeight : Option Bool
deriving DecidableEq

/-- Model of the `chrome.runtime.onMessage` listener (textually identical in
both content-script variants; this one dispatches to the `ContentAlt`
operations).  `senderId` models `sender.id` (`none` = missing; the empty
string is falsy in JS, so it also fails the `!sender.id` test), `extensionId`
models `chrome.runtime.id`.  A thrown error from the dispatched operation is
caught and surfaced as an error response; the state at the throw is kept. -/
def onMessage (extensionId : String) (senderId : Option String) (msg : Message)
    (s : SessionState) : SessionState × MsgResponse :=
  match senderId with
  | none => (s, ⟨some false, some "Invalid sender", none⟩)
  | some sid =>
    if sid = "" then (s, ⟨some false, some "Invalid sender", none⟩)
    else if sid ≠ extensionId then (s, ⟨some false, some "Invalid sender", none⟩)
    else if msg.action = "toggleFullMapHeight" then
      let s1 := { s with config := msg.enabled }
      let r := if s1.config then applyFullMapHeight s1 else removeFullMapHeight s1
      match r.2 with
      | none => (r.1, ⟨some true, none, none⟩)
      | some e => (r.1, ⟨some false, some e, none⟩)
    else if msg.action = "getState" then (s, ⟨none, none, some s.config⟩)
    else (s, ⟨some false, some "Unknown action", none⟩)

end ContentAlt

/-- The map container element as seen by `getLeafletMapInstance`: its
`_leaflet_id` expando property (`none` = property absent).  JS truthiness:
`undefined` and `0` are falsy. -/
structure MapElement where
  leafletId : Option Int
deriving DecidableEq

/-- Truthiness of `mapElement._leaflet_id`. -/
def MapElement.leafletIdTruthy (e : MapElement) : Bool :=
  match e.leafletId with
  | some n => n != 0
  | none => false

/-- The reachable part of `window.L` used by `getLeafletMapInstance`:
`mapInstancesRegistry = some reg` models the chain
`window.L.map && window.L.map._instances` being truthy, with `reg` the
id-to-instance association; `none` models `L.map` or `L.map._instances`
being absent.  Instances are abstract handles (`Nat`). -/
structure LeafletGlobal where
  mapInstancesRegistry : Option (List (Int × Nat))
deriving DecidableEq

/-- Result of `getLeafletMapInstance`, distinguishing the JS values `null`,
`undefined`, and an actual instance. -/
inductive ResolveResult where
  | jsNull
  | jsUndefined
  | inst (handle : Nat)
deriving DecidableEq

/-- Property lookup `reg[k]` on the registry object: a missing key is JS
`undefined`. -/
def lookupRegistry (reg : List (Int × Nat)) (k : Int) : Option Nat :=
  match reg with
  | [] => none
  | (i, v) :: rest => if i = k then some v else lookupRegistry rest k

/-- Model of `getLeafletMapInstance` (identical in both variants).
`L = none` models `window.L` missing, `globalsMap` models
`window.GLOBALS && window.GLOBALS.map` (collapsed: `none` when either is
absent), `mapElement = none` models a null element argument. -/
def getLeafletMapInstance (L : Option LeafletGlobal) (globalsMap : Option Nat)
    (mapElement : Option MapElement) : ResolveResult :=
  match mapElement, L with
  | none, _ => ResolveResult.jsNull
  | some _, none => ResolveResult.jsNull
  | some e, some Lg =>
    match Lg.mapInstancesRegistry with
    | some reg =>
      if e.leafletIdTruthy then
        match lookupRegistry reg (e.leafletId.getD 0) with
        | some hdl => ResolveResult.inst hdl
        | none => ResolveResult.jsUndefined
      else
        match globalsMap with
        | some g => ResolveResult.inst g
        | none => ResolveResult.jsNull
    | none =>
      match globalsMap with
      | some g => ResolveResult.inst g
      | none => ResolveResult.jsNull

/-- The operations that can run as turns of the page's event loop and touch
the session state: a direct `applyFullMapHeight` (initialization or the
storage callback), a direct `removeFullMapHeight`, the debounced
mutation-observer handler, and the toggle branch of the message listener
(which mirrors the flag into `config` before dispatching). -/
inductive Op where
  | applyCall
  | removeCall
  | debouncedAdjust
  | toggleMsg (enabled : Bool)
deriving DecidableEq

/-- One event-loop turn over the `src/content.js` operations. -/
def stepOp : Op → SessionState → SessionState
  | Op.applyCall, s => ContentJs.applyFullMapHeight s
  | Op.removeCall, s => ContentJs.removeFullMapHeight s
  | Op.debouncedAdjust, s => if s.config then adjustMapZoom s else s
  | Op.toggleMsg b, s =>
    let s1 := { s with config := b }
    if b then ContentJs.applyFullMapHeight s1 else ContentJs.removeFullMapHeight s1

/-- Run a sequence of event-loop turns. -/
def run (ops : List Op) (s : SessionState) : SessionState :=
  ops.foldl (fun st op => stepOp op st) s

/-- A resolvable map instance at zoom 5, as in the spec's concrete
scenario. -/
def initMap : MapState :=
  { zoom := 5, center := ⟨10, 20⟩, minZoom := none, maxBounds := none,
    noWrap := false, calls := [] }

/-- A fresh eligible page session: listing page, anchor present, instance
resolvable, nothing applied or captured yet. -/
def freshState : SessionState :=
  { doc := { styles := [], body := some [] },
    location := ⟨"/observations", ""⟩,
    mapIdPresent := true, leafletContainerPresent := true,
    mapInstance := some initMap,
    obsPanelPresent := false, obsPanelStyled := false,
    mapControlsPresent := false, mapControlsStyled := false,
    originalZoom := none, originalCenter := none, originalMapHeight := none,
    config := true, stylesApplied := false, mapFound := false,
    resizeEvents := 0 }

/-- An ineligible page session: user sub-path, no anchor, no instance. -/
def ineligibleState : SessionState :=
  { freshState with location := ⟨"/observations/someuser", ""⟩,
                    mapIdPresent := false, leafletContainerPresent := false,
                    mapInstance := none }

/-- A session with styles already applied. -/
def appliedState : SessionState :=
  { freshState with stylesApplied := true }

/-- A fresh eligible session whose `document.body` is null, the one throw
point of the `ContentAlt` operations. -/
def bodylessState : SessionState :=
  { freshState with doc := { styles := [], body := none } }

/-- The state reached by `apply()` then `remove()` of the `ContentAlt`
variant from a fresh eligible session: styles not applied, snapshot still
stored. -/
def rmState : SessionState :=
  (ContentAlt.removeFullMapHeight (ContentAlt.applyFullMapHeight freshState).1).1

/-- A session whose resolved instance sits at zoom 6/5, strictly between the
zoom floor and floor + step. -/
def lowZoomState : SessionState :=
  { freshState with mapInstance := some { initMap with zoom := 6/5 } }

/-- A session that already captured the viewport snapshot. -/
def snapState : SessionState :=
  { freshState with originalZoom := some 5, originalCenter := some ⟨10, 20⟩ }

/-- A sample Leaflet global whose registry maps id 7 to instance handle 42. -/
def sampleRegistry : LeafletGlobal := ⟨some [(7, 42)]⟩

/-! ## Helper lemmas -/

theorem removeElementById_of_not_mem (l : List StyleNode) (i : String)
    (h : ∀ n ∈ l, n.id ≠ i) : removeElementById l i = l := by
  induction l with
  | nil => rfl
  | cons n rest ih =>
    simp only [removeElementById]
    rw [if_neg (h n (List.mem_cons_self n rest))]
    rw [ih (fun n' hn' => h n' (List.mem_cons_of_mem n hn'))]

theorem styleCount_append (a b : List StyleNode) (i : String) :
    styleCount (a ++ b) i = styleCount a i + styleCount b i := by
  simp [styleCount, List.filter_append]

theorem styleCount_removeElementById (l : List StyleNode) (i : String) :
    styleCount (removeElementById l i) i = styleCount l i - 1 := by
  induction l with
  | nil => rfl
  | cons n rest ih =>
    by_cases h : n.id = i
    · simp [removeElementById, styleCount, h]
    · simp [removeElementById, styleCount, h] at ih ⊢
      exact ih

theorem styleCount_injectStyles (d : Doc) (css i : String)
    (h : styleCount d.styles i ≤ 1) :
    styleCount (injectStyles d css i).styles i = 1 := by
  simp only [injectStyles, styleCount_append]
  rw [styleCount_removeElementById]
  have : styleCount [(⟨i, css⟩ : StyleNode)] i = 1 := by simp [styleCount]
  omega

theorem reposition_eq (s : SessionState) :
    repositionObservationCards s =
      { s with obsPanelStyled := s.obsPanelPresent || s.obsPanelStyled,
               mapControlsStyled := s.mapControlsPresent || s.mapControlsStyled } := by
  rcases s with ⟨doc, loc, mip, lcp, mi, opp, ops, mcp, mcs, oz, oc, omh, cfg, sap, mf, re⟩
  unfold repositionObservationCards
  cases opp <;> cases mcp <;> rfl

theorem applyMapBounds_eq (s : SessionState) :
    applyMapBounds s =
      { s with mapInstance :=
          if s.mapIdPresent then
            match s.mapInstance with
            | none => none
            | some m =>
              some { m with maxBounds := some fullEarthBounds, minZoom := some 2,
                            noWrap := true,
                            calls := m.calls ++ [MapCall.setMaxBounds fullEarthBounds,
                                                 MapCall.setMinZoom 2] }
          else s.mapInstance } := by
  rcases s with ⟨doc, loc, mip, lcp, mi, opp, ops, mcp, mcs, oz, oc, omh, cfg, sap, mf, re⟩
  unfold applyMapBounds
  cases mip
  · cases mi <;> rfl
  · cases mi with
    | none => rfl
    | some m =>
      rcases m with ⟨z, c, mz, mb, nw, cl⟩
      simp [MapState.doSetMaxBounds, MapState.doSetMinZoom]

theorem adjust_noElem (s : SessionState) (h : s.mapIdPresent = false) :
    adjustMapZoom s = s := by
  unfold adjustMapZoom
  simp [h]

theorem adjust_noInstance (s : SessionState) (h : s.mapIdPresent = true)
    (hi : s.mapInstance = none) :
    adjustMapZoom s = repositionObservationCards s := by
  unfold adjustMapZoom
  simp [h, hi]

theorem adjust_fresh (s : SessionState) (m : MapState) (h : s.mapIdPresent = true)
    (hi : s.mapInstance = some m) (hz : s.originalZoom = none) :
    adjustMapZoom s = repositionObservationCards
      { s with originalZoom := some m.zoom, originalCenter := some m.center,
               mapInstance := some ((if m.zoom > MIN_ZOOM_LEVEL then
                   m.doSetZoom (m.zoom - ZOOM_ADJUSTMENT) false
                 else m).doInvalidateSize false false) } := by
  unfold adjustMapZoom
  simp [h, hi, hz]

theorem adjust_captured (s : SessionState) (m : MapState) (z : ℚ)
    (h : s.mapIdPresent = true) (hi : s.mapInstance = some m)
    (hz : s.originalZoom = some z) :
    adjustMapZoom s = repositionObservationCards
      { s with mapInstance := some ((if m.zoom > MIN_ZOOM_LEVEL then
                   m.doSetZoom (m.zoom - ZOOM_ADJUSTMENT) false
                 else m).doInvalidateSize false false) } := by
  unfold adjustMapZoom
  simp [h, hi, hz]

theorem restore_none (s : SessionState) (h : s.originalZoom = none) :
    restoreOriginalMapState s = s := by
  unfold restoreOriginalMapState
  simp [h]

theorem restore_noElem (s : SessionState) (h : s.mapIdPresent = false) :
    restoreOriginalMapState s = s := by
  unfold restoreOriginalMapState
  cases hz : s.originalZoom <;> simp [h]

theorem restore_noInstance (s : SessionState) (h : s.mapInstance = none) :
    restoreOriginalMapState s = s := by
  unfold restoreOriginalMapState
  cases hz : s.originalZoom <;> cases hm : s.mapIdPresent <;> simp [h, hm]

theorem restore_some (s : SessionState) (m : MapState) (z : ℚ) (c : LatLng)
    (hz : s.originalZoom = some z) (hc : s.originalCenter = some c)
    (h : s.mapIdPresent = true) (hi : s.mapInstance = some m) :
    restoreOriginalMapState s =
      { s with mapInstance := some ({ m with
          zoom := z, center := c,
          calls := m.calls ++ [MapCall.setZoom z false, MapCall.panTo c false,
                               MapCall.invalidateSize false false] }) } := by
  unfold restoreOriginalMapState
  rcases m with ⟨mz, mc, mmz, mmb, mnw, mcl⟩
  simp [hz, hc, h, hi, MapState.doSetZoom, MapState.doPanTo, MapState.doInvalidateSize]

theorem adjust_originals_of_some (s : SessionState) (z : ℚ)
    (hz : s.originalZoom = some z) :
    (adjustMapZoom s).originalZoom = some z
    ∧ (adjustMapZoom s).originalCenter = s.originalCenter := by
  unfold adjustMapZoom
  cases h : s.mapIdPresent
  · simp [h, hz]
  · cases hi : s.mapInstance <;> simp [h, hi, hz, reposition_eq]

theorem adjust_doc (s : SessionState) : (adjustMapZoom s).doc = s.doc := by
  unfold adjustMapZoom
  cases h : s.mapIdPresent
  · simp [h]
  · cases hi : s.mapInstance <;>
      cases hz : s.originalZoom <;> simp [h, hi, hz, reposition_eq]

theorem adjust_stylesApplied (s : SessionState) :
    (adjustMapZoom s).stylesApplied = s.stylesApplied := by
  unfold adjustMapZoom
  cases h : s.mapIdPresent
  · simp [h]
  · cases hi : s.mapInstance <;>
      cases hz : s.originalZoom <;> simp [h, hi, hz, reposition_eq]

theorem restore_originals (s : SessionState) :
    (restoreOriginalMapState s).originalZoom = s.originalZoom
    ∧ (restoreOriginalMapState s).originalCenter = s.originalCenter
    ∧ (restoreOriginalMapState s).doc = s.doc
    ∧ (restoreOriginalMapState s).stylesApplied = s.stylesApplied := by
  unfold restoreOriginalMapState
  cases hz : s.originalZoom
  · simp [hz]
  · cases h : s.mapIdPresent
    · simp [h, hz]
    · cases hi : s.mapInstance <;> cases hc : s.originalCenter <;> simp [h, hz, hi, hc]

theorem apply_of_applied (s : SessionState) (h : s.stylesApplied = true) :
    ContentJs.applyFullMapHeight s = s := by
  unfold ContentJs.applyFullMapHeight
  simp [h]

theorem adjust_fresh_originals (s : SessionState) (m : MapState)
    (h : s.mapIdPresent = true) (hi : s.mapInstance = some m)
    (hz : s.originalZoom = none) :
    (adjustMapZoom s).originalZoom = some m.zoom
    ∧ (adjustMapZoom s).originalCenter = some m.center := by
  rw [adjust_fresh s m h hi hz]
  simp [reposition_eq]

theorem applyJs_unfold (s : SessionState) (happ : s.stylesApplied = false) :
    ContentJs.applyFullMapHeight s =
      { adjustMapZoom (applyMapBounds { s with
          doc := injectStyles s.doc mapStylesText STYLE_ID, stylesApplied := true }) with
        resizeEvents := (adjustMapZoom (applyMapBounds { s with
          doc := injectStyles s.doc mapStylesText STYLE_ID,
          stylesApplied := true })).resizeEvents + 1 } := by
  unfold ContentJs.applyFullMapHeight
  simp [happ]

theorem applyJs_facts (s : SessionState) (m : MapState)
    (happ : s.stylesApplied = false) (hsnap : s.originalZoom = none)
    (hmap : s.mapIdPresent = true) (hinst : s.mapInstance = some m) :
    (ContentJs.applyFullMapHeight s).originalZoom = some m.zoom
    ∧ (ContentJs.applyFullMapHeight s).originalCenter = some m.center
    ∧ (ContentJs.applyFullMapHeight s).stylesApplied = true
    ∧ (ContentJs.applyFullMapHeight s).mapIdPresent = true
    ∧ (ContentJs.applyFullMapHeight s).doc = injectStyles s.doc mapStylesText STYLE_ID
    ∧ (∃ ma : MapState, (ContentJs.applyFullMapHeight s).mapInstance = some ma) := by
  set sa : SessionState := { s with doc := injectStyles s.doc mapStylesText STYLE_ID,
                                    stylesApplied := true } with hsa
  have h1 : (applyMapBounds sa).mapIdPresent = true := by
    simp [applyMapBounds_eq, hsa, hmap]
  have h2 : (applyMapBounds sa).originalZoom = none := by
    simp [applyMapBounds_eq, hsa, hsnap]
  have h3 : (applyMapBounds sa).mapInstance =
      some ({ m with maxBounds := some fullEarthBounds, minZoom := some 2, noWrap := true,
                     calls := m.calls ++ [MapCall.setMaxBounds fullEarthBounds,
                                          MapCall.setMinZoom 2] }) := by
    simp [applyMapBounds_eq, hsa, hmap, hinst]
  rw [applyJs_unfold s happ]
  rw [adjust_fresh (applyMapBounds sa) _ h1 h3 h2]
  refine ⟨?_, ?_, ?_, ?_, ?_, ?_⟩
  · simp [reposition_eq]
  · simp [reposition_eq]
  · simp [reposition_eq, applyMapBounds_eq, hsa]
  · simp [reposition_eq, applyMapBounds_eq, hsa, hmap]
  · simp [reposition_eq, applyMapBounds_eq, hsa]
  · rw [reposition_eq]
    exact ⟨_, rfl⟩

theorem drop_length_sub (a b : List MapCall) :
    (a ++ b).drop ((a ++ b).length - b.length) = b := by
  have hlen : (a ++ b).length - b.length = a.length := by
    simp [List.length_append]
  rw [hlen]
  exact List.drop_left a b

theorem adjust_zoom_proj (s : SessionState) (m : MapState)
    (hmap : s.mapIdPresent = true) (hinst : s.mapInstance = some m) :
    (adjustMapZoom s).mapInstance =
      some ((if m.zoom > MIN_ZOOM_LEVEL then m.doSetZoom (m.zoom - ZOOM_ADJUSTMENT) false
             else m).doInvalidateSize false false) := by
  cases hz : s.originalZoom with
  | none =>
    rw [adjust_fresh s m hmap hinst hz]
    simp [reposition_eq]
  | some z =>
    rw [adjust_captured s m z hmap hinst hz]
    simp [reposition_eq]

theorem applyJs_instance (s : SessionState) (m : MapState)
    (happ : s.stylesApplied = false) (hmap : s.mapIdPresent = true)
    (hinst : s.mapInstance = some m) :
    (ContentJs.applyFullMapHeight s).mapInstance =
      some ((if m.zoom > MIN_ZOOM_LEVEL then
               ({ m with maxBounds := some fullEarthBounds, minZoom := some 2, noWrap := true,
                         calls := m.calls ++ [MapCall.setMaxBounds fullEarthBounds,
                                              MapCall.setMinZoom 2] } : MapState).doSetZoom
                 (m.zoom - ZOOM_ADJUSTMENT) false
             else { m with maxBounds := some fullEarthBounds, minZoom := some 2, noWrap := true,
                           calls := m.calls ++ [MapCall.setMaxBounds fullEarthBounds,
                                                MapCall.setMinZoom 2] }).doInvalidateSize
        false false) := by
  set sa : SessionState := { s with doc := injectStyles s.doc mapStylesText STYLE_ID,
                                    stylesApplied := true } with hsa
  have h1 : (applyMapBounds sa).mapIdPresent = true := by
    simp [applyMapBounds_eq, hsa, hmap]
  have h3 : (applyMapBounds sa).mapInstance =
      some ({ m with maxBounds := some fullEarthBounds, minZoom := some 2, noWrap := true,
                     calls := m.calls ++ [MapCall.setMaxBounds fullEarthBounds,
                                          MapCall.setMinZoom 2] }) := by
    simp [applyMapBounds_eq, hsa, hmap, hinst]
  have hz := adjust_zoom_proj (applyMapBounds sa) _ h1 h3
  rw [applyJs_unfold s happ]
  simpa using hz

theorem applyJs_originals_of_some (s : SessionState) (z : ℚ) (c : LatLng)
    (hz : s.originalZoom = some z) (hc : s.originalCenter = some c) :
    (ContentJs.applyFullMapHeight s).originalZoom = some z
    ∧ (ContentJs.applyFullMapHeight s).originalCenter = some c := by
  rcases Bool.eq_false_or_eq_true s.stylesApplied with ha | ha
  · rw [apply_of_applied s ha]
    exact ⟨hz, hc⟩
  · set sa : SessionState := { s with doc := injectStyles s.doc mapStylesText STYLE_ID,
                                      stylesApplied := true } with hsa
    have h1 : (applyMapBounds sa).originalZoom = some z := by
      simp [applyMapBounds_eq, hsa, hz]
    have h2 := adjust_originals_of_some (applyMapBounds sa) z h1
    have h3 : (applyMapBounds sa).originalCenter = some c := by
      simp [applyMapBounds_eq, hsa, hc]
    rw [applyJs_unfold s ha]
    constructor
    · simpa using h2.1
    · simpa using h2.2.trans h3

theorem removeJs_originals (s : SessionState) :
    (ContentJs.removeFullMapHeight s).originalZoom = s.originalZoom
    ∧ (ContentJs.removeFullMapHeight s).originalCenter = s.originalCenter := by
  simp only [ContentJs.removeFullMapHeight]
  constructor
  · rw [(restore_originals _).1]
  · rw [(restore_originals _).2.1]

theorem stepOp_preserves_originals (op : Op) (s : SessionState) (z : ℚ) (c : LatLng)
    (hz : s.originalZoom = some z) (hc : s.originalCenter = some c) :
    (stepOp op s).originalZoom = some z ∧ (stepOp op s).originalCenter = some c := by
  cases op with
  | applyCall => exact applyJs_originals_of_some s z c hz hc
  | removeCall =>
    refine ⟨(removeJs_originals s).1.trans hz, (removeJs_originals s).2.trans hc⟩
  | debouncedAdjust =>
    rcases Bool.eq_false_or_eq_true s.config with hcfg | hcfg
    · have h := adjust_originals_of_some s z hz
      simp only [stepOp, hcfg, if_true]
      exact ⟨h.1, h.2.trans hc⟩
    · simp only [stepOp, hcfg]
      simp [hz, hc]
  | toggleMsg b =>
    have hz' : ({ s with config := b } : SessionState).originalZoom = some z := hz
    have hc' : ({ s with config := b } : SessionState).originalCenter = some c := hc
    cases b with
    | true =>
      have h := applyJs_originals_of_some { s with config := true } z c hz' hc'
      simpa [stepOp] using h
    | false =>
      have h := removeJs_originals { s with config := false }
      exact ⟨by simpa [stepOp] using h.1.trans hz',
             by simpa [stepOp] using h.2.trans hc'⟩

theorem removeAlt_unfold (s : SessionState) (cls : List String)
    (hbody : s.doc.body = some cls) :
    ContentAlt.removeFullMapHeight s =
      (restoreOriginalMapState { s with
          doc := { styles := removeElementById s.doc.styles STYLE_ID,
                   body := some (cls.filter (fun c => c != markerClass)) },
          stylesApplied := false }, none) := by
  unfold ContentAlt.removeFullMapHeight
  rcases s with ⟨⟨styles, body⟩, loc, mip, lcp, mi, opp, ops, mcp, mcs, oz, oc, omh, cfg, sap, mf, re⟩
  dsimp only at hbody
  subst hbody
  rfl

theorem applyJs_count_fresh :
    styleCount (ContentJs.applyFullMapHeight freshState).doc.styles STYLE_ID = 1 := by
  have hdoc : (ContentJs.applyFullMapHeight freshState).doc
      = injectStyles freshState.doc mapStylesText STYLE_ID := by
    rw [applyJs_unfold freshState rfl]
    simp [adjust_doc, applyMapBounds_eq]
  rw [hdoc]
  exact styleCount_injectStyles freshState.doc mapStylesText STYLE_ID (by decide)

/-! ## Claim theorems -/

/-- C3: the page-eligibility predicate `isMapViewPage` returns true exactly
when the URL's pathname is `/observations` or `/observations/`, independent
of the query string, and returns false for deeper sub-paths such as
`/observations/someuser` and `/observations/123`. -/
theorem c3_eligibility :
    (∀ loc : Location, ContentAlt.isMapViewPage loc = true ↔
        loc.pathname = "/observations" ∨ loc.pathname = "/observations/")
    ∧ (∀ p q q' : String,
        ContentAlt.isMapViewPage ⟨p, q⟩ = ContentAlt.isMapViewPage ⟨p, q'⟩)
    ∧ ContentAlt.isMapViewPage ⟨"/observations", "?view=map&place_id=1"⟩ = true
    ∧ ContentAlt.isMapViewPage ⟨"/observations/", "?q=taxon"⟩ = true
    ∧ ContentAlt.isMapViewPage ⟨"/observations/someuser", ""⟩ = false
    ∧ ContentAlt.isMapViewPage ⟨"/observations/123", ""⟩ = false := by
  refine ⟨?_, ?_, by decide, by decide, by decide, by decide⟩
  · intro loc
    simp [ContentAlt.isMapViewPage]
  · intro p q q'
    rfl

/-- C1: starting from a page session holding at most one singleton style
node, with styles not yet applied and no snapshot captured,
`applyFullMapHeight` leaves exactly one style node carrying `STYLE_ID`;
every later `apply()` call is a no-op because the `stylesApplied` flag
short-circuits it (so the node count and all state stay fixed); and the
viewport snapshot is captured on this first call exactly when its
post-paint adjustment resolves a map instance, and not otherwise. -/
theorem c1_apply_idempotent_singleton_snapshot (s : SessionState)
    (hcount : styleCount s.doc.styles STYLE_ID ≤ 1)
    (happ : s.stylesApplied = false) (hsnap : s.originalZoom = none) :
    styleCount (ContentJs.applyFullMapHeight s).doc.styles STYLE_ID = 1
    ∧ ContentJs.applyFullMapHeight (ContentJs.applyFullMapHeight s)
        = ContentJs.applyFullMapHeight s
    ∧ (∀ m : MapState, s.mapIdPresent = true → s.mapInstance = some m →
        (ContentJs.applyFullMapHeight s).originalZoom = some m.zoom
        ∧ (ContentJs.applyFullMapHeight s).originalCenter = some m.center)
    ∧ ((s.mapIdPresent = false ∨ s.mapInstance = none) →
        (ContentJs.applyFullMapHeight s).originalZoom = none) := by
  set sa : SessionState := { s with doc := injectStyles s.doc mapStylesText STYLE_ID,
                                    stylesApplied := true } with hsa
  have hdoc : (ContentJs.applyFullMapHeight s).doc = injectStyles s.doc mapStylesText STYLE_ID := by
    rw [applyJs_unfold s happ]
    simp [adjust_doc, applyMapBounds_eq]
  have hflag : (ContentJs.applyFullMapHeight s).stylesApplied = true := by
    rw [applyJs_unfold s happ]
    simp [adjust_stylesApplied, applyMapBounds_eq]
  refine ⟨?_, ?_, ?_, ?_⟩
  · rw [hdoc]
    exact styleCount_injectStyles s.doc mapStylesText STYLE_ID hcount
  · exact apply_of_applied _ hflag
  · intro m hmp hmi
    exact ⟨(applyJs_facts s m happ hsnap hmp hmi).1,
           (applyJs_facts s m happ hsnap hmp hmi).2.1⟩
  · intro hbad
    rcases hbad with hmp | hmi
    · have hmp' : (applyMapBounds sa).mapIdPresent = false := by
        simp [applyMapBounds_eq, hsa, hmp]
      rw [applyJs_unfold s happ, adjust_noElem _ hmp']
      simp [applyMapBounds_eq, hsa, hsnap]
    · have hmi' : (applyMapBounds sa).mapInstance = none := by
        simp [applyMapBounds_eq, hsa, hmi]
      rcases Bool.eq_false_or_eq_true s.mapIdPresent with hmp | hmp
      · have hmp' : (applyMapBounds sa).mapIdPresent = true := by
          simp [applyMapBounds_eq, hsa, hmp]
        rw [applyJs_unfold s happ, adjust_noInstance _ hmp' hmi']
        simp [reposition_eq, applyMapBounds_eq, hsa, hsnap]
      · have hmp' : (applyMapBounds sa).mapIdPresent = false := by
          simp [applyMapBounds_eq, hsa, hmp]
        rw [applyJs_unfold s happ, adjust_noElem _ hmp']
        simp [applyMapBounds_eq, hsa, hsnap]

/-- C1 witness: one apply on a fresh eligible session with a resolvable
instance at zoom 5. -/
theorem c1_witness :
    styleCount (ContentJs.applyFullMapHeight freshState).doc.styles STYLE_ID = 1
    ∧ ContentJs.applyFullMapHeight (ContentJs.applyFullMapHeight freshState)
        = ContentJs.applyFullMapHeight freshState
    ∧ (ContentJs.applyFullMapHeight freshState).originalZoom = some 5
    ∧ (ContentJs.applyFullMapHeight freshState).originalCenter = some ⟨10, 20⟩ := by
  have h := c1_apply_idempotent_singleton_snapshot freshState (by decide) (by decide) (by decide)
  refine ⟨h.1, h.2.1, ?_, ?_⟩
  · exact ((h.2.2.1 initMap (by decide) (by decide)).1).trans (by decide)
  · exact ((h.2.2.1 initMap (by decide) (by decide)).2).trans (by decide)

/-- C2: after an `apply()` that captured the snapshot, `remove()` restores
the instance's zoom and center to the values observed immediately before the
first `apply()`; the three restoring library calls (`setZoom`, `panTo`,
`invalidateSize`) all run with animation disabled, and the rendered size is
invalidated last; the flag is cleared and the singleton stylesheet is
gone. -/
theorem c2_roundtrip (s : SessionState) (m : MapState)
    (hcount : styleCount s.doc.styles STYLE_ID ≤ 1)
    (happ : s.stylesApplied = false) (hsnap : s.originalZoom = none)
    (hmap : s.mapIdPresent = true) (hinst : s.mapInstance = some m) :
    ((ContentJs.removeFullMapHeight (ContentJs.applyFullMapHeight s)).mapInstance.map
        MapState.zoom = some m.zoom)
    ∧ ((ContentJs.removeFullMapHeight (ContentJs.applyFullMapHeight s)).mapInstance.map
        MapState.center = some m.center)
    ∧ ((ContentJs.removeFullMapHeight (ContentJs.applyFullMapHeight s)).mapInstance.map
        (fun mm => mm.calls.drop (mm.calls.length - 3)) =
        some [MapCall.setZoom m.zoom false, MapCall.panTo m.center false,
              MapCall.invalidateSize false false])
    ∧ (ContentJs.removeFullMapHeight (ContentJs.applyFullMapHeight s)).stylesApplied = false
    ∧ styleCount (ContentJs.removeFullMapHeight
        (ContentJs.applyFullMapHeight s)).doc.styles STYLE_ID = 0 := by
  obtain ⟨f1, f2, f3, f4, f5, ma, f6⟩ := applyJs_facts s m happ hsnap hmap hinst
  set s1 := ContentJs.applyFullMapHeight s with hs1
  have hrm : ContentJs.removeFullMapHeight s1 =
      restoreOriginalMapState { s1 with
        doc := { s1.doc with styles := removeElementById s1.doc.styles STYLE_ID },
        stylesApplied := false } := rfl
  set s1r : SessionState := { s1 with
      doc := { s1.doc with styles := removeElementById s1.doc.styles STYLE_ID },
      stylesApplied := false } with hs1r
  have g1 : s1r.originalZoom = some m.zoom := by simp [hs1r, f1]
  have g2 : s1r.originalCenter = some m.center := by simp [hs1r, f2]
  have g3 : s1r.mapIdPresent = true := by simp [hs1r, f4]
  have g4 : s1r.mapInstance = some ma := by simp [hs1r, f6]
  have hres := restore_some s1r ma m.zoom m.center g1 g2 g3 g4
  rw [hrm, hres]
  refine ⟨?_, ?_, ?_, ?_, ?_⟩
  · simp
  · simp
  · simp
  · simp [hs1r]
  · have hgoal : styleCount (removeElementById s1.doc.styles STYLE_ID) STYLE_ID = 0 := by
      rw [f5, styleCount_removeElementById,
          styleCount_injectStyles s.doc mapStylesText STYLE_ID hcount]
    simpa [hs1r] using hgoal

/-- C2 witness: round-trip from the fresh session at zoom 5. -/
theorem c2_witness :
    ((ContentJs.removeFullMapHeight (ContentJs.applyFullMapHeight freshState)).mapInstance.map
        MapState.zoom = some 5)
    ∧ ((ContentJs.removeFullMapHeight (ContentJs.applyFullMapHeight freshState)).mapInstance.map
        MapState.center = some ⟨10, 20⟩)
    ∧ (ContentJs.removeFullMapHeight (ContentJs.applyFullMapHeight freshState)).stylesApplied
        = false := by
  have h := c2_roundtrip freshState initMap (by decide) (by decide) (by decide)
    (by decide) (by decide)
  exact ⟨h.1.trans (by decide), h.2.1.trans (by decide), h.2.2.2.1⟩

/-- C4 counterexample: the `src/content.js` variant of `applyFullMapHeight`
performs no page-eligibility check and no anchor check; invoked with styles
not applied on an ineligible page with no anchor element present, it still
injects the stylesheet and sets the flag, so it is not a no-op there. -/
theorem c4_counterexample :
    ineligibleState.stylesApplied = false
    ∧ ContentAlt.isMapViewPage ineligibleState.location = false
    ∧ ineligibleState.mapIdPresent = false
    ∧ ineligibleState.leafletContainerPresent = false
    ∧ ContentJs.applyFullMapHeight ineligibleState ≠ ineligibleState
    ∧ styleCount (ContentJs.applyFullMapHeight ineligibleState).doc.styles STYLE_ID = 1
    ∧ (ContentJs.applyFullMapHeight ineligibleState).stylesApplied = true := by
  refine ⟨rfl, by decide, rfl, rfl, by decide, by decide, by decide⟩

/-- C4 amended: in the `part_000` variant, `apply()` is a no-op — state
unchanged and no throw — when styles are already applied, when the page is
ineligible, or when neither anchor element is present; in the
`src/content.js` variant only the applied-flag guard exists, so there
`apply()` is a no-op exactly when styles are already applied (the
counterexample shows it is not a no-op under the other two conditions). -/
theorem c4_amended_apply_noop (s : SessionState) :
    ((s.stylesApplied = true ∨ ContentAlt.isMapViewPage s.location = false
        ∨ (s.mapIdPresent = false ∧ s.leafletContainerPresent = false)) →
      ContentAlt.applyFullMapHeight s = (s, none))
    ∧ (s.stylesApplied = true → ContentJs.applyFullMapHeight s = s) := by
  constructor
  · intro h
    unfold ContentAlt.applyFullMapHeight
    rcases Bool.eq_false_or_eq_true s.stylesApplied with ha | ha
    · simp [ha]
    · rcases h with h1 | h2 | ⟨h3, h4⟩
      · rw [h1] at ha
        cases ha
      · simp [ha, h2]
      · rcases Bool.eq_false_or_eq_true (ContentAlt.isMapViewPage s.location) with he | he
        · simp [ha, he, h3, h4]
        · simp [ha, he]
  · intro h
    exact apply_of_applied s h

/-- C4 witness: the amended no-ops at concrete states. -/
theorem c4_witness :
    ContentAlt.applyFullMapHeight ineligibleState = (ineligibleState, none)
    ∧ ContentJs.applyFullMapHeight appliedState = appliedState := by
  constructor
  · exact (c4_amended_apply_noop ineligibleState).1 (Or.inr (Or.inl (by decide)))
  · exact (c4_amended_apply_noop appliedState).2 (by decide)

/-- C5 counterexample: `removeFullMapHeight` has no applied-flag guard.  In
the state reached by apply-then-remove (styles not applied, snapshot still
stored), a second `remove()` performs the three restore library calls again
(the call log grows from 7 to 10 entries), so it is not a no-op. -/
theorem c5_counterexample :
    rmState.stylesApplied = false
    ∧ (ContentAlt.removeFullMapHeight rmState).1.mapInstance.map
        (fun m => m.calls.length) = some 10
    ∧ rmState.mapInstance.map (fun m => m.calls.length) = some 7
    ∧ (ContentAlt.removeFullMapHeight rmState).1 ≠ rmState := by
  refine ⟨by decide, by decide, by decide, ?_⟩
  intro h
  have h10 : (ContentAlt.removeFullMapHeight rmState).1.mapInstance.map
      (fun m => m.calls.length) = some 10 := by decide
  have h7 : rmState.mapInstance.map (fun m => m.calls.length) = some 7 := by decide
  rw [h, h7] at h10
  exact absurd h10 (by decide)

/-- C5 amended: `removeFullMapHeight` never checks the applied flag.  It
always deletes the singleton style node, removes the body marker class,
clears `stylesApplied`, and performs the viewport restore whenever a
snapshot was captured — including when styles are not currently applied.  It
is a pure no-op exactly in the fully-clean situation (flag clear, no
snapshot, no singleton node, no marker class); when no snapshot was captured
the map instance is never touched. -/
theorem c5_amended_remove (s : SessionState) (cls : List String)
    (hbody : s.doc.body = some cls) :
    ((s.stylesApplied = false ∧ s.originalZoom = none
        ∧ (∀ n ∈ s.doc.styles, n.id ≠ STYLE_ID) ∧ markerClass ∉ cls) →
      ContentAlt.removeFullMapHeight s = (s, none))
    ∧ (ContentAlt.removeFullMapHeight s).1.stylesApplied = false
    ∧ (ContentAlt.removeFullMapHeight s).1.doc.body
        = some (cls.filter (fun c => c != markerClass))
    ∧ (ContentAlt.removeFullMapHeight s).2 = none
    ∧ (styleCount s.doc.styles STYLE_ID ≤ 1 →
        styleCount (ContentAlt.removeFullMapHeight s).1.doc.styles STYLE_ID = 0)
    ∧ (s.originalZoom = none →
        (ContentAlt.removeFullMapHeight s).1.mapInstance = s.mapInstance)
    ∧ (∀ (z : ℚ) (c : LatLng) (m : MapState), s.originalZoom = some z →
        s.originalCenter = some c → s.mapIdPresent = true → s.mapInstance = some m →
        (ContentAlt.removeFullMapHeight s).1.mapInstance =
          some ({ m with zoom := z, center := c,
                         calls := m.calls ++ [MapCall.setZoom z false, MapCall.panTo c false,
                                              MapCall.invalidateSize false false] })) := by
  have hrm := removeAlt_unfold s cls hbody
  set s3 : SessionState := { s with
      doc := { styles := removeElementById s.doc.styles STYLE_ID,
               body := some (cls.filter (fun c => c != markerClass)) },
      stylesApplied := false } with hs3def
  refine ⟨?_, ?_, ?_, ?_, ?_, ?_, ?_⟩
  · rintro ⟨h1, h2, h3, h4⟩
    have e2 : cls.filter (fun c => c != markerClass) = cls := by
      rw [List.filter_eq_self]
      intro a ha
      simp only [bne_iff_ne, ne_eq]
      intro he
      exact h4 (he ▸ ha)
    rw [hrm, hs3def, removeElementById_of_not_mem _ _ h3, e2]
    have hcollapse :
        ({ s with
            doc := { styles := s.doc.styles, body := some cls },
            stylesApplied := false } : SessionState) = s := by
      rw [← hbody, ← h1]
    rw [hcollapse, restore_none s h2]
  · rw [hrm]
    exact (restore_originals s3).2.2.2
  · rw [hrm]
    exact congrArg Doc.body (restore_originals s3).2.2.1
  · rw [hrm]
  · intro hcount
    rw [hrm]
    show styleCount (restoreOriginalMapState s3).doc.styles STYLE_ID = 0
    rw [(restore_originals s3).2.2.1]
    show styleCount (removeElementById s.doc.styles STYLE_ID) STYLE_ID = 0
    rw [styleCount_removeElementById]
    omega
  · intro h2
    rw [hrm, restore_none s3 h2]
  · intro z c m hz hc hmp hmi
    rw [hrm, restore_some s3 m z c hz hc hmp hmi]

/-- C5 witness: the amended behaviour at concrete states — a pure no-op on
the fresh clean session, and flag clearing from the applied session. -/
theorem c5_witness :
    ContentAlt.removeFullMapHeight freshState = (freshState, none)
    ∧ (ContentAlt.removeFullMapHeight appliedState).1.stylesApplied = false := by
  constructor
  · exact (c5_amended_remove freshState [] rfl).1
      ⟨rfl, rfl, by simp [freshState], by simp⟩
  · exact (c5_amended_remove appliedState [] rfl).2.1

/-- C6 counterexample: with current zoom 6/5 — above the floor 1 but below
floor + step — `adjustMapZoom` sets the zoom to 6/5 − 1/2 = 7/10, which is
below the configured floor `MIN_ZOOM_LEVEL = 1`. -/
theorem c6_counterexample :
    lowZoomState.mapInstance.map MapState.zoom = some (6/5)
    ∧ (6/5 : ℚ) > MIN_ZOOM_LEVEL
    ∧ (adjustMapZoom lowZoomState).mapInstance.map MapState.zoom = some (7/10)
    ∧ (7/10 : ℚ) < MIN_ZOOM_LEVEL := by
  have hproj := adjust_zoom_proj lowZoomState ({ initMap with zoom := 6/5 }) rfl rfl
  have hpos : ({ initMap with zoom := (6:ℚ)/5 } : MapState).zoom > MIN_ZOOM_LEVEL := by
    show MIN_ZOOM_LEVEL < (6:ℚ)/5
    rw [show MIN_ZOOM_LEVEL = 1 from rfl]
    norm_num
  refine ⟨rfl, ?_, ?_, ?_⟩
  · rw [show MIN_ZOOM_LEVEL = 1 from rfl]
    norm_num
  · rw [hproj, if_pos hpos]
    simp only [MapState.doSetZoom, MapState.doInvalidateSize, Option.map]
    rw [show ZOOM_ADJUSTMENT = 1/2 from rfl]
    norm_num
  · rw [show MIN_ZOOM_LEVEL = 1 from rfl]
    norm_num

/-- C6 amended: when the current zoom exceeds the floor, `adjustMapZoom`
decreases it by exactly one step (0.5), otherwise leaves it unchanged; the
result stays at or above the floor whenever the current zoom is at least
floor + step (but can drop below the floor for zooms strictly between the
floor and floor + step); and in the concrete zoom-5 scenario, `apply()`
injects one stylesheet, the zoom becomes 4.5, the bounds are restricted to
the full-earth box, the minimum zoom is raised to 2 and tile layers are
marked non-wrapping. -/
theorem c6_amended_zoom_step (s : SessionState) (m : MapState)
    (hmap : s.mapIdPresent = true) (hinst : s.mapInstance = some m) :
    (m.zoom > MIN_ZOOM_LEVEL →
      (adjustMapZoom s).mapInstance.map MapState.zoom = some (m.zoom - ZOOM_ADJUSTMENT))
    ∧ (¬ m.zoom > MIN_ZOOM_LEVEL →
      (adjustMapZoom s).mapInstance.map MapState.zoom = some m.zoom)
    ∧ (m.zoom ≥ MIN_ZOOM_LEVEL + ZOOM_ADJUSTMENT →
      ∀ z', (adjustMapZoom s).mapInstance.map MapState.zoom = some z' →
        z' ≥ MIN_ZOOM_LEVEL)
    ∧ styleCount (ContentJs.applyFullMapHeight freshState).doc.styles STYLE_ID = 1
    ∧ (ContentJs.applyFullMapHeight freshState).mapInstance.map MapState.zoom = some (9/2)
    ∧ (ContentJs.applyFullMapHeight freshState).mapInstance.map MapState.minZoom
        = some (some 2)
    ∧ (ContentJs.applyFullMapHeight freshState).mapInstance.map MapState.maxBounds
        = some (some fullEarthBounds)
    ∧ (ContentJs.applyFullMapHeight freshState).mapInstance.map MapState.noWrap
        = some true := by
  have hproj := adjust_zoom_proj s m hmap hinst
  have hM : MIN_ZOOM_LEVEL = 1 := rfl
  have hZ : ZOOM_ADJUSTMENT = 1/2 := rfl
  have hfresh := applyJs_instance freshState initMap rfl rfl rfl
  have hfive : initMap.zoom > MIN_ZOOM_LEVEL := by
    show MIN_ZOOM_LEVEL < initMap.zoom
    rw [hM, show initMap.zoom = 5 from rfl]
    norm_num
  refine ⟨?_, ?_, ?_, ?_, ?_, ?_, ?_, ?_⟩
  · intro h
    rw [hproj]
    simp [h, MapState.doSetZoom, MapState.doInvalidateSize]
  · intro h
    rw [hproj]
    simp [h, MapState.doInvalidateSize]
  · intro hge z' heq
    rw [hM, hZ] at hge
    have h1 : m.zoom > MIN_ZOOM_LEVEL := by
      rw [hM]
      linarith
    rw [hproj] at heq
    simp [h1, MapState.doSetZoom, MapState.doInvalidateSize] at heq
    rw [hZ] at heq
    rw [hM]
    linarith [heq]
  · exact applyJs_count_fresh
  · rw [hfresh, if_pos hfive]
    simp only [MapState.doSetZoom, MapState.doInvalidateSize, Option.map]
    rw [hZ, show initMap.zoom = 5 from rfl]
    norm_num
  · rw [hfresh, if_pos hfive]
    rfl
  · rw [hfresh, if_pos hfive]
    rfl
  · rw [hfresh, if_pos hfive]
    rfl

/-- C6 witness: the step behaviour at the fresh zoom-5 session. -/
theorem c6_witness :
    (adjustMapZoom freshState).mapInstance.map MapState.zoom = some (9/2) := by
  have h := (c6_amended_zoom_step freshState initMap rfl rfl).1
    (by show MIN_ZOOM_LEVEL < initMap.zoom
        rw [show MIN_ZOOM_LEVEL = 1 from rfl, show initMap.zoom = 5 from rfl]
        norm_num)
  refine h.trans ?_
  rw [show ZOOM_ADJUSTMENT = 1/2 from rfl, show initMap.zoom = 5 from rfl]
  norm_num

/-- C8: across any sequence of event-loop turns (direct apply, direct
remove, the debounced adjust handler, toggle messages), a captured viewport
snapshot is never overwritten: once `originalStyles.zoom`/`center` hold a
value, every later state holds the same value, so the snapshot is captured
at most once per page session. -/
theorem c8_snapshot_never_overwritten (ops : List Op) (s : SessionState)
    (z : ℚ) (c : LatLng)
    (hz : s.originalZoom = some z) (hc : s.originalCenter = some c) :
    (run ops s).originalZoom = some z ∧ (run ops s).originalCenter = some c := by
  induction ops generalizing s with
  | nil => exact ⟨hz, hc⟩
  | cons op rest ih =>
    have h := stepOp_preserves_originals op s z c hz hc
    exact ih (stepOp op s) h.1 h.2

/-- C8 witness: a full remove-and-reapply cycle keeps the first snapshot. -/
theorem c8_witness :
    (run [Op.applyCall, Op.removeCall, Op.toggleMsg true, Op.debouncedAdjust]
        snapState).originalZoom = some 5
    ∧ (run [Op.applyCall, Op.removeCall, Op.toggleMsg true, Op.debouncedAdjust]
        snapState).originalCenter = some ⟨10, 20⟩ :=
  c8_snapshot_never_overwritten
    [Op.applyCall, Op.removeCall, Op.toggleMsg true, Op.debouncedAdjust]
    snapState 5 ⟨10, 20⟩ (by decide) (by decide)

/-- C9: a valid `toggleFullMapHeight` request mirrors the requested value
into `config.fullMapHeight` before dispatching; when the dispatched
operation throws (here: null `document.body`), the handler answers
`{success:false, error:...}`, the config keeps the requested value — the
change is not rolled back — and a subsequent `getState` reports the
requested value even though the toggle failed. -/
theorem c9_toggle_no_rollback (extensionId : String) (s : SessionState)
    (hid : extensionId ≠ "")
    (happ : s.stylesApplied = false)
    (helig : ContentAlt.isMapViewPage s.location = true)
    (hanchor : (s.mapIdPresent || s.leafletContainerPresent) = true)
    (hbody : s.doc.body = none) :
    (ContentAlt.onMessage extensionId (some extensionId)
        ⟨"toggleFullMapHeight", true⟩ s).1 = { s with config := true }
    ∧ (ContentAlt.onMessage extensionId (some extensionId)
        ⟨"toggleFullMapHeight", true⟩ s).2.success = some false
    ∧ (ContentAlt.onMessage extensionId (some extensionId)
        ⟨"toggleFullMapHeight", true⟩ s).2.error.isSome = true
    ∧ (ContentAlt.onMessage extensionId (some extensionId) ⟨"getState", false⟩
        (ContentAlt.onMessage extensionId (some extensionId)
          ⟨"toggleFullMapHeight", true⟩ s).1).2.fullMapHeight = some true := by
  have happly : ContentAlt.applyFullMapHeight { s with config := true } =
      ({ s with config := true }, some "TypeError: body is null") := by
    unfold ContentAlt.applyFullMapHeight
    simp [happ, helig, hanchor, hbody]
  have hmsg : ContentAlt.onMessage extensionId (some extensionId)
      ⟨"toggleFullMapHeight", true⟩ s =
      ({ s with config := true },
       ⟨some false, some "TypeError: body is null", none⟩) := by
    unfold ContentAlt.onMessage
    simp [hid, happly]
  rw [hmsg]
  refine ⟨rfl, rfl, rfl, ?_⟩
  unfold ContentAlt.onMessage
  simp [hid]

/-- C9 witness: the failed toggle at the bodyless eligible session. -/
theorem c9_witness :
    (ContentAlt.onMessage "ext-abc" (some "ext-abc")
        ⟨"toggleFullMapHeight", true⟩ bodylessState).2.success = some false
    ∧ (ContentAlt.onMessage "ext-abc" (some "ext-abc")
        ⟨"toggleFullMapHeight", true⟩ bodylessState).1.config = true := by
  have h := c9_toggle_no_rollback "ext-abc" bodylessState (by decide) (by decide)
    (by decide) (by decide) (by decide)
  refine ⟨h.2.1, ?_⟩
  rw [h.1]

/-- C7: the message listener rejects senders whose identity is missing,
falsy, or different from the extension's own id with
`{success:false, error:"Invalid sender"}` and no state change, and rejects
any action other than `toggleFullMapHeight` and `getState` with
`{success:false, error:"Unknown action"}` and no state change. -/
theorem c7_message_contract (extensionId : String) (senderId : Option String)
    (msg : ContentAlt.Message) (s : SessionState) :
    (senderId = none →
      ContentAlt.onMessage extensionId senderId msg s =
        (s, ⟨some false, some "Invalid sender", none⟩))
    ∧ (∀ sid, senderId = some sid → (sid = "" ∨ sid ≠ extensionId) →
      ContentAlt.onMessage extensionId senderId msg s =
        (s, ⟨some false, some "Invalid sender", none⟩))
    ∧ (senderId = some extensionId → extensionId ≠ "" →
       msg.action ≠ "toggleFullMapHeight" → msg.action ≠ "getState" →
      ContentAlt.onMessage extensionId senderId msg s =
        (s, ⟨some false, some "Unknown action", none⟩)) := by
  refine ⟨?_, ?_, ?_⟩
  · intro h
    subst h
    rfl
  · intro sid hsid hbad
    subst hsid
    rcases hbad with hempty | hne
    · subst hempty
      simp [ContentAlt.onMessage]
    · simp [ContentAlt.onMessage, hne]
  · intro hsid hne htoggle hget
    subst hsid
    simp [ContentAlt.onMessage, hne, htoggle, hget]

/-- C7 witness: concrete rejected requests. -/
theorem c7_witness :
    ContentAlt.onMessage "ext-abc" (some "mallory") ⟨"toggleFullMapHeight", true⟩ freshState
      = (freshState, ⟨some false, some "Invalid sender", none⟩)
    ∧ ContentAlt.onMessage "ext-abc" (some "ext-abc") ⟨"bogus", true⟩ freshState
      = (freshState, ⟨some false, some "Unknown action", none⟩) := by
  constructor
  · exact (c7_message_contract "ext-abc" (some "mallory")
      ⟨"toggleFullMapHeight", true⟩ freshState).2.1 "mallory" rfl (Or.inr (by decide))
  · exact (c7_message_contract "ext-abc" (some "ext-abc")
      ⟨"bogus", true⟩ freshState).2.2 rfl (by decide) (by decide) (by decide)

/-- C10: in `getLeafletMapInstance`, when the element carries a truthy
`_leaflet_id` and the registry chain exists, the result is the registry
entry for that id — `jsUndefined` when the entry is missing — and is
independent of the global-singleton fallback; the fallback is consulted
exactly when the id is falsy or the registry is absent; a null element or a
missing `window.L` yields `jsNull` without throwing. -/
theorem c10_resolution_chain :
    (∀ (Lg : LeafletGlobal) (reg : List (Int × Nat)) (g g' : Option Nat) (e : MapElement),
        Lg.mapInstancesRegistry = some reg → e.leafletIdTruthy = true →
        getLeafletMapInstance (some Lg) g (some e) =
          (match lookupRegistry reg (e.leafletId.getD 0) with
           | some hdl => ResolveResult.inst hdl
           | none => ResolveResult.jsUndefined)
        ∧ getLeafletMapInstance (some Lg) g (some e) =
            getLeafletMapInstance (some Lg) g' (some e))
    ∧ (∀ (Lg : LeafletGlobal) (g : Option Nat) (e : MapElement),
        (e.leafletIdTruthy = false ∨ Lg.mapInstancesRegistry = none) →
        getLeafletMapInstance (some Lg) g (some e) =
          (match g with
           | some h => ResolveResult.inst h
           | none => ResolveResult.jsNull))
    ∧ (∀ (L : Option LeafletGlobal) (g : Option Nat),
        getLeafletMapInstance L g none = ResolveResult.jsNull)
    ∧ (∀ (g : Option Nat) (e : MapElement),
        getLeafletMapInstance none g (some e) = ResolveResult.jsNull) := by
  refine ⟨?_, ?_, ?_, ?_⟩
  · intro Lg reg g g' e hreg htruthy
    constructor
    · simp [getLeafletMapInstance, hreg, htruthy]
    · simp [getLeafletMapInstance, hreg, htruthy]
  · intro Lg g e hbad
    cases hreg : Lg.mapInstancesRegistry with
    | none => simp [getLeafletMapInstance, hreg]
    | some reg =>
      rcases hbad with hfalsy | hnone
      · simp [getLeafletMapInstance, hreg, hfalsy]
      · rw [hreg] at hnone
        cases hnone
  · intro L g
    cases L <;> rfl
  · intro g e
    rfl

/-- C10 witness: concrete resolutions through each arm of the chain. -/
theorem c10_witness :
    getLeafletMapInstance (some sampleRegistry) (some 99) (some ⟨some 7⟩) = ResolveResult.inst 42
    ∧ getLeafletMapInstance (some sampleRegistry) (some 99) (some ⟨some 8⟩) = ResolveResult.jsUndefined
    ∧ getLeafletMapInstance (some ⟨none⟩) (some 99) (some ⟨some 7⟩) = ResolveResult.inst 99
    ∧ getLeafletMapInstance (some sampleRegistry) (some 99) none = ResolveResult.jsNull
    ∧ getLeafletMapInstance none (some 99) (some ⟨some 7⟩) = ResolveResult.jsNull := by
  have h := c10_resolution_chain
  refine ⟨?_, ?_, ?_, ?_, ?_⟩
  · exact ((h.1 sampleRegistry [(7, 42)] (some 99) none ⟨some 7⟩ rfl (by decide)).1).trans (by decide)
  · exact ((h.1 sampleRegistry [(7, 42)] (some 99) none ⟨some 8⟩ rfl (by decide)).1).trans (by decide)
  · exact (h.2.1 ⟨none⟩ (some 99) ⟨some 7⟩ (Or.inr rfl)).trans (by decide)
  · exact h.2.2.1 (some sampleRegistry) (some 99)
  · exact h.2.2.2 (some 99) ⟨some 7⟩

end INat
